import Mathlib

/-!
Verification development for the Photo-Watermark tool (src/main.py).

The program is shallow-embedded: Python string and path primitives
(str.strip, str.lower, int(), str.split, os.path.join / basename /
dirname / splitext) are modelled as executable Lean functions on
character lists, POSIX semantics; external-library outcomes (image
decoding, text measurement, file writes, EXIF parsing, the clock and
the filesystem) are supplied through explicit environment records.
-/

set_option linter.unusedVariables false

/-! ### Python string primitives -/

/-- Characters treated as whitespace by Python's str.strip / int(). -/
def isPySpace (c : Char) : Bool :=
  c == ' ' || c == '\t' || c == '\n' || c == '\r' ||
  c == Char.ofNat 11 || c == Char.ofNat 12

/-- Python str.strip() on a character list. -/
def pyStripL (cs : List Char) : List Char :=
  ((cs.dropWhile isPySpace).reverse.dropWhile isPySpace).reverse

/-- Python str.strip() on a string. -/
def pyStrip (s : String) : String :=
  String.mk (pyStripL s.data)

/-- Python str.lower() (ASCII case folding; all inputs here are ASCII). -/
def pyLower (s : String) : String :=
  String.mk (s.data.map Char.toLower)

/-- Does the string start with a path separator (posixpath.join test)? -/
def startsWithSlash (s : String) : Bool :=
  s.data.head? == some '/'

/-- Does the string end with a path separator (posixpath.join test)? -/
def endsWithSlash (s : String) : Bool :=
  s.data.reverse.head? == some '/'

/-- Digit tail of Python int() literals: digits with single underscores
allowed between digits, accumulating the value. -/
def pyDigitsGo (acc : Nat) : List Char → Option Nat
  | [] => some acc
  | '_' :: c :: rest =>
    if c.isDigit then pyDigitsGo (acc * 10 + (c.toNat - 48)) rest else none
  | c :: rest =>
    if c.isDigit then pyDigitsGo (acc * 10 + (c.toNat - 48)) rest else none

/-- Nonempty digit run of a Python int() literal. -/
def pyDigits : List Char → Option Nat
  | [] => none
  | c :: rest =>
    if c.isDigit then pyDigitsGo (c.toNat - 48) rest else none

/-- Python int(str): strip whitespace, optional sign, digits (with
single underscores between digits); anything else raises ValueError,
modelled as none. -/
def pyInt (s : String) : Option Int :=
  match pyStripL s.data with
  | '-' :: rest => (pyDigits rest).map (fun n => -(n : Int))
  | '+' :: rest => (pyDigits rest).map (fun n => (n : Int))
  | cs => (pyDigits cs).map (fun n => (n : Int))

/-- Python int(str) as an Except: a failed conversion is the ValueError
the source does not catch at the font-size and opacity prompts. -/
def pyIntE (s : String) : Except String Int :=
  match pyInt s with
  | some n => Except.ok n
  | none => Except.error ("invalid literal for int with base 10: " ++ s)

/-- Python str.split on a single comma. -/
def splitComma : List Char → List (List Char)
  | [] => [[]]
  | c :: rest =>
    let r := splitComma rest
    if c == ',' then [] :: r
    else
      match r with
      | [] => [[c]]
      | h :: t => (c :: h) :: t

/-! ### POSIX path primitives (os.path on a non-Windows host) -/

/-- posixpath.join for two components, as used by the source. -/
def pyJoin (a b : String) : String :=
  if startsWithSlash b then b
  else if a = "" || endsWithSlash a then a ++ b
  else a ++ "/" ++ b

/-- posixpath.basename: everything after the last slash. -/
def pyBasename (p : String) : String :=
  String.mk ((p.data.reverse.takeWhile (fun c => c != '/')).reverse)

/-- posixpath.dirname: everything before the last slash, with trailing
slashes stripped unless the head is entirely slashes. -/
def pyDirname (p : String) : String :=
  if (p.data.reverse.dropWhile (fun c => c != '/')).isEmpty then ""
  else if (p.data.reverse.dropWhile (fun c => c != '/')).all (fun c => c == '/') then
    String.mk (p.data.reverse.dropWhile (fun c => c != '/')).reverse
  else
    String.mk ((p.data.reverse.dropWhile (fun c => c != '/')).dropWhile
      (fun c => c == '/')).reverse

/-- Extension part of posixpath.splitext: the suffix starting at the
last dot of the basename, provided some earlier basename character is
not a dot (so dotfiles such as ".jpg" have no extension). -/
def pyExt (p : String) : String :=
  let br := p.data.reverse.takeWhile (fun c => c != '/')
  let extR := br.takeWhile (fun c => c != '.')
  match br.dropWhile (fun c => c != '.') with
  | [] => ""
  | _dot :: before =>
    if before.any (fun c => c != '.') then String.mk ('.' :: extR.reverse)
    else ""

/-! ### Date resolver (get_exif_datetime, src/main.py lines 7-30) -/

/-- A Python datetime value (naive, no timezone), as produced by
datetime.strptime, datetime.fromtimestamp and datetime.now. -/
structure PyDatetime where
  year : Nat
  month : Nat
  day : Nat
  hour : Nat
  minute : Nat
  second : Nat
deriving DecidableEq

/-- Dictionary lookup on the exifread tag table, modelled as an
association list with unique keys. -/
def lookup_tag (tags : List (String × String)) (k : String) : Option String :=
  (tags.find? (fun kv => kv.1 == k)).map (fun kv => kv.2)

/-- The fixed tag priority list of the source: original capture time,
digitized capture time, generic image timestamp. -/
def datetime_tags : List String :=
  ["EXIF DateTimeOriginal", "EXIF DateTimeDigitized", "Image DateTime"]

/-- The for-loop over datetime_tags in get_exif_datetime: the first
tag that is present is parsed with strptime; a ValueError (strp
returning none) falls through to the next tag via continue. -/
def tag_loop (strp : String → Option PyDatetime)
    (tags : List (String × String)) : List String → Option PyDatetime
  | [] => none
  | t :: rest =>
    match lookup_tag tags t with
    | none => tag_loop strp tags rest
    | some v =>
      match strp v with
      | some d => some d
      | none => tag_loop strp tags rest

/-- External outcomes consumed by get_exif_datetime: the result of
exifread.process_file (error means the open or the EXIF parse raised),
the result of os.path.getmtime plus datetime.fromtimestamp (error
means the stat raised inside the same try block), and datetime.now. -/
structure ExifReadEnv where
  processed : Except String (List (String × String))
  mtime : Except String PyDatetime
  now : PyDatetime

/-- get_exif_datetime (src/main.py lines 7-30): strptime is passed in
as the stdlib collaborator for the fixed format string. Any exception
inside the try block yields datetime.now; a successful extraction with
no parseable tag yields the file modification time. -/
def get_exif_datetime (strp : String → Option PyDatetime)
    (env : ExifReadEnv) : PyDatetime :=
  match env.processed with
  | Except.error _ => env.now
  | Except.ok tags =>
    match tag_loop strp tags datetime_tags with
    | some d => d
    | none =>
      match env.mtime with
      | Except.ok t => t
      | Except.error _ => env.now

/-! ### Watermark compositor (add_watermark, src/main.py lines 32-97) -/

/-- A PIL image as far as the claims observe it: its pixel
dimensions. Every compositing step of the source preserves them. -/
structure PILImage where
  width : Nat
  height : Nat
deriving DecidableEq

/-- The position branch of add_watermark (src/main.py lines 73-83):
top_left, top_right, bottom_left, center are tested in order and every
other value falls to the bottom_right else-branch. Python floor
division on ints is Int.fdiv. -/
def watermark_xy (position : String) (w h tw th : Int) : Int × Int :=
  if position = "top_left" then (10, 10)
  else if position = "top_right" then (w - tw - 10, 10)
  else if position = "bottom_left" then (10, h - th - 10)
  else if position = "center" then ((w - tw).fdiv 2, (h - th).fdiv 2)
  else (w - tw - 10, h - th - 10)

/-- PIL Image.alpha_composite: requires both images to have the same
size (otherwise it raises, which the source would catch) and returns
an image of that size. -/
def alpha_composite (base overlay : PILImage) : Option PILImage :=
  if base.width = overlay.width && base.height = overlay.height then
    some { width := base.width, height := base.height }
  else none

/-- External-library outcomes consumed by add_watermark: the decoded
image (none models Image.open or convert raising), the measured text
extent (font loading itself never fails the operation: the source
falls back to ImageFont.load_default), and whether the final save
succeeds. The save is modelled as atomic: PIL either writes the whole
flattened file or raises before output exists. -/
structure PILEnv where
  decoded : Option PILImage
  text_width : Nat
  text_height : Nat
  write_ok : Bool

/-- add_watermark (src/main.py lines 32-97), returning the boolean the
source returns together with the output file's image if one was
written. The overlay layer is created with the decoded image's size,
the text is drawn at the computed position (which does not change the
layer's size), the layers are alpha-composited, flattened to RGB
(size-preserving) and saved. Every exception yields (false, no file). -/
def add_watermark (env : PILEnv) (font_size : Int)
    (font_color : Int × Int × Int) (position : String) (opacity : Int) :
    Bool × Option PILImage :=
  match env.decoded with
  | none => (false, none)
  | some image =>
    let watermark_layer : PILImage := { width := image.width, height := image.height }
    let xy := watermark_xy position (image.width : Int) (image.height : Int)
      (env.text_width : Int) (env.text_height : Int)
    match alpha_composite image watermark_layer with
    | none => (false, none)
    | some combined =>
      if env.write_ok then (true, some combined) else (false, none)

/-! ### Driver parameter validation (main, src/main.py lines 99-167) -/

/-- The five recognised position names (src/main.py line 125). -/
def valid_positions : List String :=
  ["top_left", "top_right", "bottom_left", "bottom_right", "center"]

/-- Position validation (src/main.py lines 124-128): an unrecognised
value is replaced by the default bottom_right; the Bool records
whether the warning was printed. -/
def validate_position (p : String) : String × Bool :=
  if p ∈ valid_positions then (p, false) else ("bottom_right", true)

/-- Opacity validation (src/main.py lines 130-133): an integer outside
0..255 is replaced by the default 128; the Bool records the warning. -/
def validate_opacity (o : Int) : Int × Bool :=
  if 0 ≤ o ∧ o ≤ 255 then (o, false) else (128, true)

/-- The RGB branch of the colour validation (src/main.py lines
147-151): split on commas, convert every part with int() (a ValueError
from any part is the caught exception, modelled as none), then require
exactly three components each within 0..255. -/
def parse_rgb_triple (s : String) : Option (Int × Int × Int) :=
  match (splitComma s.data).mapM (fun part => pyInt (String.mk part)) with
  | none => none
  | some cs =>
    match cs with
    | [r, g, b] =>
      if 0 ≤ r ∧ r ≤ 255 ∧ 0 ≤ g ∧ g ≤ 255 ∧ 0 ≤ b ∧ b ≤ 255 then
        some (r, g, b)
      else none
    | _ => none

/-- Colour validation (src/main.py lines 135-154): five named colours
compared case-insensitively, otherwise the RGB triple parse, otherwise
the default white with a warning (the Bool). -/
def parse_font_color (s : String) : (Int × Int × Int) × Bool :=
  if pyLower s = "white" then ((255, 255, 255), false)
  else if pyLower s = "black" then ((0, 0, 0), false)
  else if pyLower s = "red" then ((255, 0, 0), false)
  else if pyLower s = "green" then ((0, 255, 0), false)
  else if pyLower s = "blue" then ((0, 0, 255), false)
  else
    match parse_rgb_triple s with
    | some c => (c, false)
    | none => ((255, 255, 255), true)

/-- The style values main passes to the processing functions, which
hand them unchanged to add_watermark. -/
structure Style where
  font_size : Int
  font_color : Int × Int × Int
  position : String
  opacity : Int
deriving DecidableEq

/-- The raw strings returned by the five input() prompts of main. -/
structure RawInputs where
  imagePath : String
  fontSizeIn : String
  colorIn : String
  positionIn : String
  opacityIn : String

/-- The parameter-collection and validation phase of main (src/main.py
lines 103-154), in source order: each prompt's text is stripped, an
empty answer selects the default, font size and opacity go through
int() whose ValueError is not caught (the Except error), and the
position, opacity and colour validations then run. Font size is never
validated. -/
def main_params (inp : RawInputs) : Except String Style :=
  match (if pyStrip inp.fontSizeIn = "" then Except.ok 20
         else pyIntE (pyStrip inp.fontSizeIn)),
        (if pyStrip inp.opacityIn = "" then Except.ok 128
         else pyIntE (pyStrip inp.opacityIn)) with
  | Except.error e, _ => Except.error e
  | Except.ok _, Except.error e => Except.error e
  | Except.ok font_size, Except.ok opacity0 =>
    Except.ok
      { font_size := font_size,
        font_color := (parse_font_color
          (if pyStrip inp.colorIn = "" then "white" else pyStrip inp.colorIn)).1,
        position := (validate_position
          (if pyStrip inp.positionIn = "" then "bottom_right" else pyStrip inp.positionIn)).1,
        opacity := (validate_opacity opacity0).1 }

/-- The observable outcome of one run of main. -/
inductive RunOutcome where
  | raised (msg : String)
  | pathError (path : String)
  | runFile (path : String) (st : Style)
  | runDir (path : String) (st : Style)
deriving DecidableEq

/-- main (src/main.py lines 99-167): parameter collection first (an
uncaught ValueError aborts the run), then the existence check on the
stripped input path (failure prints the error and returns), then
dispatch to single-file or directory processing with the validated
style. pathExists and isFile are the filesystem's answers. -/
def main_run (inp : RawInputs) (pathExists isFile : Bool) : RunOutcome :=
  match main_params inp with
  | Except.error e => RunOutcome.raised e
  | Except.ok st =>
    let path := pyStrip inp.imagePath
    if pathExists = false then RunOutcome.pathError path
    else if isFile then RunOutcome.runFile path st
    else RunOutcome.runDir path st

/-! ### File selection (src/main.py lines 169-226) -/

/-- The recognised image extensions (src/main.py lines 172 and 211). -/
def image_extensions : List String :=
  [".jpg", ".jpeg", ".png", ".bmp", ".gif", ".tiff"]

/-- One entry of os.listdir together with the os.path.isdir answer for
it. listdir yields immediate children only: names, never paths. -/
structure DirEntry where
  name : String
  isDir : Bool
deriving DecidableEq

/-- A filesystem-visible step the processing functions perform, in
order: creating the output directory, printing a skip message for a
non-image, or handing an input/output path pair to add_watermark. -/
inductive FsAction where
  | mkdirA (path : String)
  | skipMsg (path : String)
  | watermarkA (inPath outPath : String)
deriving DecidableEq

/-- Output directory of both modes (src/main.py lines 183 and 199):
joined onto the input directory itself, named after its basename. -/
def output_dir_for (dir_path : String) : String :=
  pyJoin dir_path (pyBasename dir_path ++ "_watermark")

/-- process_single_file (src/main.py lines 169-194): the extension of
the lowercased full path is checked first; a non-image is only a skip
message. Otherwise the output directory is created under the file's
parent directory and the watermark call receives the output path
joining that directory with the file's basename. -/
def process_single_file (file_path : String) : List FsAction :=
  if pyExt (pyLower file_path) ∈ image_extensions then
    let dir_path := pyDirname file_path
    let file_name := pyBasename file_path
    let output_dir := output_dir_for dir_path
    [FsAction.mkdirA output_dir,
     FsAction.watermarkA file_path (pyJoin output_dir file_name)]
  else [FsAction.skipMsg file_path]

/-- The body of the listdir loop of process_directory (src/main.py
lines 203-225) for one entry: a subdirectory is skipped silently, a
non-image gets a skip message, an image is watermarked to the output
directory under its own name. -/
def dir_entry_action (dir_path output_dir : String) (e : DirEntry) :
    Option FsAction :=
  if e.isDir then none
  else if pyExt (pyLower e.name) ∈ image_extensions then
    some (FsAction.watermarkA (pyJoin dir_path e.name) (pyJoin output_dir e.name))
  else some (FsAction.skipMsg e.name)

/-- process_directory (src/main.py lines 196-226): the output
directory is created before the loop, unconditionally; then the
immediate entries are handled one by one. -/
def process_directory (dir_path : String) (entries : List DirEntry) :
    List FsAction :=
  let output_dir := output_dir_for dir_path
  FsAction.mkdirA output_dir :: entries.filterMap (dir_entry_action dir_path output_dir)

/-- Modelled from the spec: the claim places the output directory
alongside (as a sibling of) the input directory; this definition
follows those words, for comparison with output_dir_for. -/
def sibling_output_dir (dir_path : String) : String :=
  pyJoin (pyDirname dir_path) (pyBasename dir_path ++ "_watermark")

/-! ### Helper lemmas -/

/-- The tag loop returns the first tag value that is both present and
parseable, in list order: it equals the head of the filterMap of
lookup-then-parse over the priority list. -/
theorem tag_loop_eq (strp : String → Option PyDatetime)
    (tags : List (String × String)) :
    ∀ l : List String,
      tag_loop strp tags l =
        (l.filterMap (fun t => (lookup_tag tags t).bind strp)).head?
  | [] => rfl
  | t :: rest => by
    simp only [tag_loop, List.filterMap_cons]
    cases h : lookup_tag tags t with
    | none => simp [h, tag_loop_eq strp tags rest]
    | some v =>
      cases hv : strp v with
      | none => simp [h, hv, tag_loop_eq strp tags rest]
      | some d => simp [h, hv]

/-! ### Claim theorems -/

/-- Claim C2: add_watermark either returns success with an output file
whose pixel dimensions equal the decoded input image's dimensions, or
returns failure and produces no output file (in particular when the
final write fails no output exists). -/
theorem add_watermark_dims_or_no_file (env : PILEnv) (font_size : Int)
    (font_color : Int × Int × Int) (position : String) (opacity : Int) :
    ((add_watermark env font_size font_color position opacity).1 = true →
      ∃ img, env.decoded = some img ∧
        (add_watermark env font_size font_color position opacity).2 =
          some { width := img.width, height := img.height }) ∧
    ((add_watermark env font_size font_color position opacity).1 = false →
      (add_watermark env font_size font_color position opacity).2 = none) := by
  cases hd : env.decoded with
  | none => simp [add_watermark, hd]
  | some img =>
    cases hw : env.write_ok with
    | false => simp [add_watermark, hd, alpha_composite, hw]
    | true =>
      refine ⟨fun _ => ⟨img, rfl, ?_⟩, fun hfalse => ?_⟩
      · simp [add_watermark, hd, alpha_composite, hw]
      · simp [add_watermark, hd, alpha_composite, hw] at hfalse

/-- Witness for claim C2 at a concrete environment: a 100 by 50 input
with a successful write yields an output file of 100 by 50. -/
theorem add_watermark_dims_or_no_file_witness :
    (add_watermark
      { decoded := some { width := 100, height := 50 },
        text_width := 20, text_height := 10, write_ok := true }
      20 (255, 255, 255) "bottom_right" 128).2 =
      some { width := 100, height := 50 } := by
  obtain ⟨img, himg, hout⟩ :=
    (add_watermark_dims_or_no_file
      { decoded := some { width := 100, height := 50 },
        text_width := 20, text_height := 10, write_ok := true }
      20 (255, 255, 255) "bottom_right" 128).1 rfl
  injection himg with h
  rw [hout, h]

/-- Claim C3: the date resolver checks the capture-time tags in the
fixed priority order EXIF DateTimeOriginal, EXIF DateTimeDigitized,
Image DateTime, and returns the value of the first tag that is present
and parses under the fixed format; a present tag that fails to parse
is skipped in favour of the next tag rather than aborting. -/
theorem exif_tag_priority (strp : String → Option PyDatetime)
    (env : ExifReadEnv) (tags : List (String × String))
    (h : env.processed = Except.ok tags) :
    tag_loop strp tags datetime_tags =
      (datetime_tags.filterMap (fun t => (lookup_tag tags t).bind strp)).head? ∧
    ∀ d, (datetime_tags.filterMap (fun t => (lookup_tag tags t).bind strp)).head? = some d →
      get_exif_datetime strp env = d := by
  refine ⟨tag_loop_eq strp tags datetime_tags, fun d hd => ?_⟩
  simp [get_exif_datetime, h, tag_loop_eq strp tags datetime_tags, hd]

/-- Witness for claim C3: with an unparseable original-capture tag and
a parseable digitized tag, the resolver skips to and returns the
digitized value. -/
theorem exif_tag_priority_witness :
    get_exif_datetime
      (fun s => if s = "2020:01:02 03:04:05" then
        some { year := 2020, month := 1, day := 2, hour := 3, minute := 4, second := 5 }
        else none)
      { processed := Except.ok
          [("EXIF DateTimeOriginal", "broken"),
           ("EXIF DateTimeDigitized", "2020:01:02 03:04:05")],
        mtime := Except.ok { year := 1999, month := 1, day := 1, hour := 0, minute := 0, second := 0 },
        now := { year := 2026, month := 10, day := 12, hour := 0, minute := 0, second := 0 } } =
      { year := 2020, month := 1, day := 2, hour := 3, minute := 4, second := 5 } :=
  (exif_tag_priority _ _
    [("EXIF DateTimeOriginal", "broken"),
     ("EXIF DateTimeDigitized", "2020:01:02 03:04:05")] rfl).2 _ rfl

/-- Claim C4: the date resolver never raises; when metadata extraction
succeeds but no tag yields a parseable value it returns the file's
modification timestamp, and when extraction itself raises it returns
the current wall-clock time. -/
theorem exif_fallbacks (strp : String → Option PyDatetime) (env : ExifReadEnv) :
    (∀ tags t, env.processed = Except.ok tags →
      tag_loop strp tags datetime_tags = none → env.mtime = Except.ok t →
      get_exif_datetime strp env = t) ∧
    (∀ e, env.processed = Except.error e →
      get_exif_datetime strp env = env.now) := by
  constructor
  · intro tags t hp hl hm
    simp [get_exif_datetime, hp, hl, hm]
  · intro e hp
    simp [get_exif_datetime, hp]

/-- Witness for claim C4: a file whose only tag never parses resolves
to its modification time, and a file whose metadata read raises
resolves to the current time. -/
theorem exif_fallbacks_witness :
    get_exif_datetime (fun _ => none)
      { processed := Except.ok [("Image DateTime", "x")],
        mtime := Except.ok { year := 2021, month := 5, day := 6, hour := 7, minute := 8, second := 9 },
        now := { year := 2026, month := 10, day := 12, hour := 0, minute := 0, second := 0 } } =
      { year := 2021, month := 5, day := 6, hour := 7, minute := 8, second := 9 } ∧
    get_exif_datetime (fun _ => none)
      { processed := Except.error "unreadable",
        mtime := Except.ok { year := 2021, month := 5, day := 6, hour := 7, minute := 8, second := 9 },
        now := { year := 2026, month := 10, day := 12, hour := 0, minute := 0, second := 0 } } =
      { year := 2026, month := 10, day := 12, hour := 0, minute := 0, second := 0 } :=
  ⟨(exif_fallbacks (fun _ => none) _).1 [("Image DateTime", "x")] _ rfl rfl rfl,
   (exif_fallbacks (fun _ => none) _).2 "unreadable" rfl⟩

/-- Claim C5: the compositor's top-left coordinate for each of the
five positions, with the fixed 10-pixel margin, center using floor
integer division, and any unrecognised position treated as
bottom_right. -/
theorem watermark_position_math (w h tw th : Int) :
    watermark_xy "top_left" w h tw th = (10, 10) ∧
    watermark_xy "top_right" w h tw th = (w - tw - 10, 10) ∧
    watermark_xy "bottom_left" w h tw th = (10, h - th - 10) ∧
    watermark_xy "bottom_right" w h tw th = (w - tw - 10, h - th - 10) ∧
    watermark_xy "center" w h tw th = ((w - tw).fdiv 2, (h - th).fdiv 2) ∧
    ∀ p, p ∉ valid_positions →
      watermark_xy p w h tw th = (w - tw - 10, h - th - 10) := by
  refine ⟨rfl, rfl, rfl, rfl, rfl, fun p hp => ?_⟩
  simp only [valid_positions, List.mem_cons, List.not_mem_nil, or_false, not_or] at hp
  obtain ⟨h1, h2, h3, h4, h5⟩ := hp
  simp [watermark_xy, h1, h2, h3, h5]

/-- Witness for claim C5: the unrecognised position value middle on a
100 by 50 image with a 20 by 10 text lands at the bottom_right
coordinate (70, 30). -/
theorem watermark_position_math_witness :
    watermark_xy "middle" 100 50 20 10 = (70, 30) :=
  (watermark_position_math 100 50 20 10).2.2.2.2.2 "middle" (by decide)

/-- Claim C6: driver-level validation replaces an unrecognised
position with bottom_right, an out-of-range integer opacity with 128,
and a colour string that is neither a named colour nor a valid RGB
triple with white, each emitting a warning (the Bool components). -/
theorem driver_coercions (p : String) (o : Int) (s : String) :
    (p ∉ valid_positions → validate_position p = ("bottom_right", true)) ∧
    (¬(0 ≤ o ∧ o ≤ 255) → validate_opacity o = (128, true)) ∧
    (pyLower s ∉ (["white", "black", "red", "green", "blue"] : List String) →
      parse_rgb_triple s = none →
      parse_font_color s = ((255, 255, 255), true)) := by
  refine ⟨fun hp => ?_, fun ho => ?_, fun hn hr => ?_⟩
  · simp [validate_position, hp]
  · simp [validate_opacity, ho]
  · simp only [List.mem_cons, List.not_mem_nil, or_false, not_or] at hn
    obtain ⟨h1, h2, h3, h4, h5⟩ := hn
    simp [parse_font_color, h1, h2, h3, h4, h5, hr]

/-- Witness for claim C6 at the spec's own test inputs: middle, 999
and fuchsia are coerced to bottom_right, 128 and white. -/
theorem driver_coercions_witness :
    validate_position "middle" = ("bottom_right", true) ∧
    validate_opacity 999 = (128, true) ∧
    parse_font_color "fuchsia" = ((255, 255, 255), true) :=
  ⟨(driver_coercions "middle" 999 "fuchsia").1 (by decide),
   (driver_coercions "middle" 999 "fuchsia").2.1 (by decide),
   (driver_coercions "middle" 999 "fuchsia").2.2 (by decide) rfl⟩

/-- If the font-size and opacity answers are empty or numeric, the
parameter phase of main succeeds. -/
theorem main_params_ok (inp : RawInputs)
    (hf : pyStrip inp.fontSizeIn = "" ∨ (pyInt (pyStrip inp.fontSizeIn)).isSome = true)
    (ho : pyStrip inp.opacityIn = "" ∨ (pyInt (pyStrip inp.opacityIn)).isSome = true) :
    ∃ st, main_params inp = Except.ok st := by
  have h1 : ∃ n, (if pyStrip inp.fontSizeIn = "" then Except.ok 20
      else pyIntE (pyStrip inp.fontSizeIn)) = Except.ok n := by
    by_cases hE : pyStrip inp.fontSizeIn = ""
    · exact ⟨20, by rw [if_pos hE]⟩
    · rcases hf with hf | hf
      · exact absurd hf hE
      · obtain ⟨n, hn⟩ := Option.isSome_iff_exists.mp hf
        exact ⟨n, by rw [if_neg hE]; simp [pyIntE, hn]⟩
  have h2 : ∃ n, (if pyStrip inp.opacityIn = "" then Except.ok 128
      else pyIntE (pyStrip inp.opacityIn)) = Except.ok n := by
    by_cases hE : pyStrip inp.opacityIn = ""
    · exact ⟨128, by rw [if_pos hE]⟩
    · rcases ho with ho | ho
      · exact absurd ho hE
      · obtain ⟨n, hn⟩ := Option.isSome_iff_exists.mp ho
        exact ⟨n, by rw [if_neg hE]; simp [pyIntE, hn]⟩
  obtain ⟨n1, e1⟩ := h1
  obtain ⟨n2, e2⟩ := h2
  exact ⟨_, by unfold main_params; rw [e1, e2]⟩

/-- Inversion on a successful parameter phase: the produced style's
colour, position and opacity are the outputs of the validation
functions, while font_size is whatever int() returned. -/
theorem main_params_shape (inp : RawInputs) (st : Style)
    (h : main_params inp = Except.ok st) :
    ∃ fs o, st =
      { font_size := fs,
        font_color := (parse_font_color
          (if pyStrip inp.colorIn = "" then "white" else pyStrip inp.colorIn)).1,
        position := (validate_position
          (if pyStrip inp.positionIn = "" then "bottom_right" else pyStrip inp.positionIn)).1,
        opacity := (validate_opacity o).1 } := by
  unfold main_params at h
  split at h
  · cases h
  · cases h
  · injection h with h
    exact ⟨_, _, h.symm⟩

/-- The opacity validator always yields a value within 0..255. -/
theorem validate_opacity_range (o : Int) :
    0 ≤ (validate_opacity o).1 ∧ (validate_opacity o).1 ≤ 255 := by
  unfold validate_opacity
  split
  · next hcond => exact hcond
  · exact ⟨by decide, by decide⟩

/-- The position validator always yields one of the five names. -/
theorem validate_position_mem (p : String) :
    (validate_position p).1 ∈ valid_positions := by
  unfold validate_position
  split
  · next hcond => exact hcond
  · decide

/-- A successful RGB triple parse yields channels within 0..255. -/
theorem parse_rgb_triple_range (s : String) (r g b : Int)
    (h : parse_rgb_triple s = some (r, g, b)) :
    0 ≤ r ∧ r ≤ 255 ∧ 0 ≤ g ∧ g ≤ 255 ∧ 0 ≤ b ∧ b ≤ 255 := by
  unfold parse_rgb_triple at h
  split at h
  · cases h
  · split at h
    · split at h
      · next hb => cases h; exact hb
      · cases h
    · cases h

/-- The colour validator always yields channels within 0..255. -/
theorem parse_font_color_range (s : String) :
    (0 ≤ (parse_font_color s).1.1 ∧ (parse_font_color s).1.1 ≤ 255) ∧
    (0 ≤ (parse_font_color s).1.2.1 ∧ (parse_font_color s).1.2.1 ≤ 255) ∧
    (0 ≤ (parse_font_color s).1.2.2 ∧ (parse_font_color s).1.2.2 ≤ 255) := by
  unfold parse_font_color
  split
  · exact ⟨⟨by decide, by decide⟩, ⟨by decide, by decide⟩, by decide, by decide⟩
  · split
    · exact ⟨⟨by decide, by decide⟩, ⟨by decide, by decide⟩, by decide, by decide⟩
    · split
      · exact ⟨⟨by decide, by decide⟩, ⟨by decide, by decide⟩, by decide, by decide⟩
      · split
        · exact ⟨⟨by decide, by decide⟩, ⟨by decide, by decide⟩, by decide, by decide⟩
        · split
          · exact ⟨⟨by decide, by decide⟩, ⟨by decide, by decide⟩, by decide, by decide⟩
          · split
            · next c hr =>
              obtain ⟨r, g, b⟩ := c
              obtain ⟨h1, h2, h3, h4, h5, h6⟩ := parse_rgb_triple_range s r g b hr
              exact ⟨⟨h1, h2⟩, ⟨h3, h4⟩, h5, h6⟩
            · exact ⟨⟨by decide, by decide⟩, ⟨by decide, by decide⟩, by decide, by decide⟩

/-- Counterexample to claim C7 as stated: a non-numeric font-size
answer makes int() raise an uncaught ValueError, aborting the run even
though the input path exists; so a validation failure other than a
non-existent path can abort the run. -/
theorem nonnumeric_font_size_aborts_cex :
    main_run { imagePath := "photos", fontSizeIn := "abc", colorIn := "",
               positionIn := "", opacityIn := "" } true false =
      RunOutcome.raised "invalid literal for int with base 10: abc" := rfl

/-- Claim C7 amended: when the font-size and opacity answers are empty
or numeric, no validation failure of position, opacity range or colour
aborts the run (invalid values are replaced with defaults); with those
parses succeeding, the only aborting input is a non-existent path,
which only reports the error. Non-numeric font-size or opacity input,
however, raises an uncaught error. -/
theorem validation_never_aborts_amended (inp : RawInputs) (pathExists isFile : Bool)
    (hf : pyStrip inp.fontSizeIn = "" ∨ (pyInt (pyStrip inp.fontSizeIn)).isSome = true)
    (ho : pyStrip inp.opacityIn = "" ∨ (pyInt (pyStrip inp.opacityIn)).isSome = true) :
    (pathExists = false →
      main_run inp pathExists isFile = RunOutcome.pathError (pyStrip inp.imagePath)) ∧
    (pathExists = true → ∃ st, main_run inp pathExists isFile =
      (if isFile then RunOutcome.runFile (pyStrip inp.imagePath) st
       else RunOutcome.runDir (pyStrip inp.imagePath) st)) := by
  obtain ⟨st, hst⟩ := main_params_ok inp hf ho
  constructor
  · intro hpe
    simp [main_run, hst, hpe]
  · intro hpe
    exact ⟨st, by simp [main_run, hst, hpe]⟩

/-- Witness for the amended claim C7: a run whose answers are all
defaulted or invalid-but-validated stops at a missing path with only
the error report. -/
theorem validation_never_aborts_amended_witness :
    main_run { imagePath := "missing", fontSizeIn := "", colorIn := "fuchsia",
               positionIn := "middle", opacityIn := "999" } false false =
      RunOutcome.pathError "missing" :=
  (validation_never_aborts_amended
    { imagePath := "missing", fontSizeIn := "", colorIn := "fuchsia",
      positionIn := "middle", opacityIn := "999" } false false
    (Or.inl rfl) (Or.inr rfl)).1 rfl

/-- Counterexample to claim C8 as stated: the driver never validates
font size, so the run with font-size answer -5 reaches the compositor
dispatch carrying font_size -5, which is not a positive integer. -/
theorem unvalidated_font_size_cex :
    main_run { imagePath := "photos/a.jpg", fontSizeIn := "-5", colorIn := "",
               positionIn := "", opacityIn := "" } true true =
      RunOutcome.runFile "photos/a.jpg"
        { font_size := -5, font_color := (255, 255, 255),
          position := "bottom_right", opacity := 128 } ∧
    ¬(0 < (-5 : Int)) := ⟨rfl, by decide⟩

/-- Claim C8 amended: every style that reaches the compositor dispatch
has opacity and all three colour channels within 0..255 and a position
among the five enumerated values, because those three parameters are
validated before processing starts; font size, however, is passed
through unvalidated. -/
theorem compositor_style_in_range_amended (inp : RawInputs) (pe fl : Bool)
    (p : String) (st : Style)
    (h : main_run inp pe fl = RunOutcome.runFile p st ∨
         main_run inp pe fl = RunOutcome.runDir p st) :
    (0 ≤ st.opacity ∧ st.opacity ≤ 255) ∧
    st.position ∈ valid_positions ∧
    (0 ≤ st.font_color.1 ∧ st.font_color.1 ≤ 255) ∧
    (0 ≤ st.font_color.2.1 ∧ st.font_color.2.1 ≤ 255) ∧
    (0 ≤ st.font_color.2.2 ∧ st.font_color.2.2 ≤ 255) := by
  have hok : main_params inp = Except.ok st := by
    cases hmp : main_params inp with
    | error e => rcases h with h | h <;> simp [main_run, hmp] at h
    | ok st0 =>
      rcases h with h | h <;> cases pe <;> cases fl <;>
        simp [main_run, hmp] at h <;> rw [h.2]
  obtain ⟨fs, o, hshape⟩ := main_params_shape inp st hok
  subst hshape
  refine ⟨validate_opacity_range o, validate_position_mem _, ?_⟩
  obtain ⟨hc1, hc2, hc3⟩ := parse_font_color_range
    (if pyStrip inp.colorIn = "" then "white" else pyStrip inp.colorIn)
  exact ⟨hc1, hc2, hc3⟩

/-- Witness for the amended claim C8 at a run with every optional
answer invalid but validated: the dispatched style is in range. -/
theorem compositor_style_in_range_amended_witness :
    (0 ≤ (128 : Int) ∧ (128 : Int) ≤ 255) ∧
    ("bottom_right" : String) ∈ valid_positions ∧
    (0 ≤ (255 : Int) ∧ (255 : Int) ≤ 255) ∧
    (0 ≤ (255 : Int) ∧ (255 : Int) ≤ 255) ∧
    (0 ≤ (255 : Int) ∧ (255 : Int) ≤ 255) :=
  compositor_style_in_range_amended
    { imagePath := "photos", fontSizeIn := "", colorIn := "fuchsia",
      positionIn := "middle", opacityIn := "999" } true false "photos"
    { font_size := 20, font_color := (255, 255, 255),
      position := "bottom_right", opacity := 128 }
    (Or.inr rfl)

/-- takeWhile runs past a prefix whose elements all satisfy the
predicate. -/
theorem takeWhile_append_of_all {α : Type} (q : α → Bool) (l1 l2 : List α)
    (h : l1.all q = true) :
    (l1 ++ l2).takeWhile q = l1 ++ l2.takeWhile q := by
  induction l1 with
  | nil => rfl
  | cons a l ih =>
    simp only [List.all_cons, Bool.and_eq_true] at h
    simp only [List.cons_append, List.takeWhile_cons, h.1, if_true, ih h.2]

/-- dropWhile consumes a prefix whose elements all satisfy the
predicate. -/
theorem dropWhile_append_of_all {α : Type} (q : α → Bool) (l1 l2 : List α)
    (h : l1.all q = true) :
    (l1 ++ l2).dropWhile q = l2.dropWhile q := by
  induction l1 with
  | nil => rfl
  | cons a l ih =>
    simp only [List.all_cons, Bool.and_eq_true] at h
    simp only [List.cons_append, List.dropWhile_cons, h.1, if_true, ih h.2]

/-- Every element of a takeWhile result satisfies the predicate. -/
theorem all_takeWhile_self {α : Type} (q : α → Bool) (l : List α) :
    (l.takeWhile q).all q = true := by
  rw [List.all_eq_true]
  intro a ha
  exact List.mem_takeWhile_imp ha

/-- Nonemptiness of a string is nonemptiness of its character list. -/
theorem string_ne_empty_iff (s : String) : s ≠ "" ↔ s.data ≠ [] :=
  not_congr String.ext_iff

/-- A basename never contains a path separator. -/
theorem pyBasename_no_slash (p : String) :
    (pyBasename p).data.all (fun c => c != '/') = true := by
  show ((p.data.reverse.takeWhile (fun c => c != '/')).reverse).all
    (fun c => c != '/') = true
  rw [List.all_reverse]
  exact all_takeWhile_self _ _

/-- A nonempty string not ending in a separator ends in some
non-separator character. -/
theorem last_char_not_slash (p : String) (h0 : p ≠ "")
    (h1 : endsWithSlash p = false) :
    ∃ c cs, p.data.reverse = c :: cs ∧ (c == '/') = false := by
  rw [string_ne_empty_iff] at h0
  cases hdr : p.data.reverse with
  | nil => exact absurd (List.reverse_eq_nil_iff.mp hdr) h0
  | cons c cs =>
    refine ⟨c, cs, rfl, ?_⟩
    have h2 : (p.data.reverse.head? == some '/') = false := h1
    rw [hdr] at h2
    exact h2

/-- The basename of a nonempty string not ending in a separator is
nonempty. -/
theorem pyBasename_ne_empty (p : String) (h0 : p ≠ "")
    (h1 : endsWithSlash p = false) :
    pyBasename p ≠ "" := by
  rw [string_ne_empty_iff]
  obtain ⟨c, cs, hdr, hc⟩ := last_char_not_slash p h0 h1
  show ((p.data.reverse.takeWhile (fun c => c != '/')).reverse) ≠ []
  rw [hdr, List.takeWhile_cons]
  simp [ne_of_beq_false hc]

/-- Appending a nonempty string yields a nonempty string. -/
theorem append_ne_empty_right (s t : String) (ht : t ≠ "") : s ++ t ≠ "" := by
  rw [string_ne_empty_iff] at ht ⊢
  show s.data ++ t.data ≠ []
  simp [ht]

/-- Ending in a separator only depends on the last component. -/
theorem endsWithSlash_append (a x : String) (hx : x ≠ "") :
    endsWithSlash (a ++ x) = endsWithSlash x := by
  rw [string_ne_empty_iff] at hx
  show ((a.data ++ x.data).reverse.head? == some '/') =
    (x.data.reverse.head? == some '/')
  rw [List.reverse_append]
  cases hxr : x.data.reverse with
  | nil => exact absurd (List.reverse_eq_nil_iff.mp hxr) hx
  | cons c cs => rfl

/-- A slash-free string followed by one not starting with a slash does
not start with a slash. -/
theorem startsWithSlash_append_left (s t : String)
    (hs : s.data.all (fun c => c != '/') = true)
    (ht : startsWithSlash t = false) :
    startsWithSlash (s ++ t) = false := by
  show ((s.data ++ t.data).head? == some '/') = false
  cases hsd : s.data with
  | nil => exact ht
  | cons c cs =>
    rw [hsd] at hs
    simp only [List.all_cons, Bool.and_eq_true] at hs
    have hne : c ≠ '/' := by simpa using hs.1
    simpa using hne

/-- When the right part does not start with a slash and the left part
is nonempty without a trailing slash, posixpath.join inserts one
separator. -/
theorem pyJoin_eq (a b : String) (h1 : startsWithSlash b = false)
    (h2 : a ≠ "") (h3 : endsWithSlash a = false) :
    pyJoin a b = a ++ "/" ++ b := by
  simp [pyJoin, h1, h2, h3]

/-- The reversed character data of a joined path. -/
theorem rev_data_join (d x : String) :
    (d ++ "/" ++ x).data.reverse = x.data.reverse ++ '/' :: d.data.reverse := by
  have h : (d ++ "/" ++ x).data = (d.data ++ ['/']) ++ x.data := rfl
  rw [h, List.reverse_append, List.reverse_append]
  simp

/-- Basename of an explicitly joined path with a slash-free last
component. -/
theorem pyBasename_append (d x : String)
    (hx : x.data.all (fun c => c != '/') = true) :
    pyBasename (d ++ "/" ++ x) = x := by
  show String.mk (((d ++ "/" ++ x).data.reverse.takeWhile
    (fun c => c != '/')).reverse) = x
  rw [rev_data_join,
    takeWhile_append_of_all _ _ _ (by rw [List.all_reverse]; exact hx)]
  have h1 : ('/' :: d.data.reverse).takeWhile (fun c => c != '/') = [] := by
    rw [List.takeWhile_cons]
    simp
  rw [h1, List.append_nil, List.reverse_reverse]

/-- Dirname of an explicitly joined path with a slash-free nonempty
last component: the parent is recovered exactly. -/
theorem pyDirname_append (d x : String) (hd0 : d ≠ "")
    (hd1 : endsWithSlash d = false)
    (hx : x.data.all (fun c => c != '/') = true) :
    pyDirname (d ++ "/" ++ x) = d := by
  obtain ⟨c, cs, hdr, hc⟩ := last_char_not_slash d hd0 hd1
  unfold pyDirname
  rw [rev_data_join,
    dropWhile_append_of_all _ _ _ (by rw [List.all_reverse]; exact hx)]
  have h1 : ('/' :: d.data.reverse).dropWhile (fun c => c != '/') =
      '/' :: d.data.reverse := by
    rw [List.dropWhile_cons]
    simp
  rw [h1, hdr]
  have hall : (('/' :: c :: cs).all (fun c => c == '/')) = false := by
    simp [hc]
  have h2 : ('/' :: c :: cs).dropWhile (fun c => c == '/') = c :: cs := by
    simp [List.dropWhile_cons, hc]
  simp only [List.isEmpty_cons, hall, h2, Bool.false_eq_true, if_false]
  rw [← hdr, List.reverse_reverse]

/-- A slash-free string does not start with a slash. -/
theorem startsWithSlash_of_no_slash (s : String)
    (hs : s.data.all (fun c => c != '/') = true) :
    startsWithSlash s = false := by
  show (s.data.head? == some '/') = false
  cases hsd : s.data with
  | nil => rfl
  | cons c cs =>
    rw [hsd] at hs
    simp only [List.all_cons, Bool.and_eq_true] at hs
    have hne : c ≠ '/' := by simpa using hs.1
    simpa using hne

/-- Counterexample to claim C1 as stated: for input directory
/data/photos the code creates /data/photos/photos_watermark, which is
inside the input directory; the sibling directory described by the
claim (sibling_output_dir, modelled from the claim's words) would be
/data/photos_watermark, a different path. -/
theorem output_dir_not_sibling_cex :
    output_dir_for "/data/photos" = "/data/photos/photos_watermark" ∧
    sibling_output_dir "/data/photos" = "/data/photos_watermark" ∧
    output_dir_for "/data/photos" ≠ sibling_output_dir "/data/photos" :=
  ⟨rfl, rfl, by decide⟩

/-- Claim C1 amended: in both modes the output directory, named
basename(input directory) ++ _watermark, is created inside the input
directory (its parent is the input directory itself, not the input
directory's parent), and every output file is written inside it under
a filename identical to the input filename; single-file mode derives
the input directory as the file's parent. -/
theorem output_layout_amended (d f : String) (entries : List DirEntry)
    (hd0 : d ≠ "") (hd1 : endsWithSlash d = false)
    (hnames : ∀ e ∈ entries,
      e.name ≠ "" ∧ e.name.data.all (fun c => c != '/') = true) :
    (pyDirname (output_dir_for d) = d ∧
     pyBasename (output_dir_for d) = pyBasename d ++ "_watermark") ∧
    (∀ inP outP, FsAction.watermarkA inP outP ∈ process_directory d entries →
      ∃ e ∈ entries, e.isDir = false ∧ inP = pyJoin d e.name ∧
        pyDirname outP = output_dir_for d ∧ pyBasename outP = e.name) ∧
    (pyExt (pyLower f) ∈ image_extensions → pyDirname f = d → f ≠ "" →
      endsWithSlash f = false →
      process_single_file f =
        [FsAction.mkdirA (output_dir_for d),
         FsAction.watermarkA f (pyJoin (output_dir_for d) (pyBasename f))] ∧
      pyDirname (pyJoin (output_dir_for d) (pyBasename f)) = output_dir_for d ∧
      pyBasename (pyJoin (output_dir_for d) (pyBasename f)) = pyBasename f) := by
  have hxne : pyBasename d ++ "_watermark" ≠ "" :=
    append_ne_empty_right _ _ (by decide)
  have hxns : (pyBasename d ++ "_watermark").data.all (fun c => c != '/') = true := by
    show ((pyBasename d).data ++ ("_watermark" : String).data).all
      (fun c => c != '/') = true
    rw [List.all_append, pyBasename_no_slash d]
    decide
  have hxsw : startsWithSlash (pyBasename d ++ "_watermark") = false :=
    startsWithSlash_append_left _ _ (pyBasename_no_slash d) (by decide)
  have hxew : endsWithSlash (pyBasename d ++ "_watermark") = false := by
    rw [endsWithSlash_append _ _ (by decide : ("_watermark" : String) ≠ "")]
    decide
  have hout : output_dir_for d = d ++ "/" ++ (pyBasename d ++ "_watermark") :=
    pyJoin_eq _ _ hxsw hd0 hd1
  have houtne : output_dir_for d ≠ "" := by
    rw [hout]
    exact append_ne_empty_right _ _ hxne
  have houtew : endsWithSlash (output_dir_for d) = false := by
    rw [hout]
    show endsWithSlash ((d ++ "/") ++ (pyBasename d ++ "_watermark")) = false
    rw [endsWithSlash_append _ _ hxne]
    exact hxew
  have hdirout : pyDirname (output_dir_for d) = d := by
    rw [hout]
    exact pyDirname_append d _ hd0 hd1 hxns
  have hbaseout : pyBasename (output_dir_for d) = pyBasename d ++ "_watermark" := by
    rw [hout]
    exact pyBasename_append d _ hxns
  refine ⟨⟨hdirout, hbaseout⟩, ?_, ?_⟩
  · intro inP outP hmem
    simp only [process_directory, List.mem_cons] at hmem
    rcases hmem with hmem | hmem
    · simp at hmem
    · obtain ⟨e, he, hact⟩ := List.mem_filterMap.mp hmem
      unfold dir_entry_action at hact
      by_cases hdir : e.isDir
      · rw [if_pos hdir] at hact
        cases hact
      · rw [if_neg hdir] at hact
        by_cases hext : pyExt (pyLower e.name) ∈ image_extensions
        · rw [if_pos hext] at hact
          injection hact with hact
          injection hact with h1 h2
          obtain ⟨hne, hns⟩ := hnames e he
          have hsw : startsWithSlash e.name = false :=
            startsWithSlash_of_no_slash _ hns
          have hjoin : pyJoin (output_dir_for d) e.name =
              output_dir_for d ++ "/" ++ e.name :=
            pyJoin_eq _ _ hsw houtne houtew
          refine ⟨e, he, by simpa using hdir, h1.symm, ?_, ?_⟩
          · rw [← h2, hjoin]
            exact pyDirname_append _ _ houtne houtew hns
          · rw [← h2, hjoin]
            exact pyBasename_append _ _ hns
        · rw [if_neg hext] at hact
          simp at hact
  · intro hext hdf hf0 hf1
    have hstep : process_single_file f =
        [FsAction.mkdirA (output_dir_for (pyDirname f)),
         FsAction.watermarkA f (pyJoin (output_dir_for (pyDirname f)) (pyBasename f))] := by
      unfold process_single_file
      rw [if_pos hext]
    rw [hdf] at hstep
    have hbns := pyBasename_no_slash f
    have hsw : startsWithSlash (pyBasename f) = false :=
      startsWithSlash_of_no_slash _ hbns
    have hjoin : pyJoin (output_dir_for d) (pyBasename f) =
        output_dir_for d ++ "/" ++ pyBasename f :=
      pyJoin_eq _ _ hsw houtne houtew
    refine ⟨hstep, ?_, ?_⟩
    · rw [hjoin]
      exact pyDirname_append _ _ houtne houtew hbns
    · rw [hjoin]
      exact pyBasename_append _ _ hbns

/-- Witness for the amended claim C1: the parent of the output
directory for /data/photos is /data/photos itself. -/
theorem output_layout_amended_witness :
    pyDirname (output_dir_for "/data/photos") = "/data/photos" :=
  ((output_layout_amended "/data/photos" "/data/photos/a.jpg" []
    (by decide) (by decide) (by simp)).1).1

/-- Claim C9: directory mode handles only the immediate entries: a
subdirectory entry yields no action at all (not processed, not
recursed into, not reported), every action beyond the initial mkdir
arises from an immediate non-directory entry, and an entry is
watermarked only when its lowercased name's extension is in the
recognised set. -/
theorem directory_mode_filtering (d : String) (entries : List DirEntry) :
    (∀ e : DirEntry, e.isDir = true →
      dir_entry_action d (output_dir_for d) e = none) ∧
    (∀ a ∈ process_directory d entries,
      a = FsAction.mkdirA (output_dir_for d) ∨
      ∃ e ∈ entries, e.isDir = false ∧
        dir_entry_action d (output_dir_for d) e = some a) ∧
    (∀ e ∈ entries, ∀ inP outP,
      dir_entry_action d (output_dir_for d) e =
        some (FsAction.watermarkA inP outP) →
      pyExt (pyLower e.name) ∈ image_extensions) := by
  refine ⟨?_, ?_, ?_⟩
  · intro e he
    simp [dir_entry_action, he]
  · intro a ha
    simp only [process_directory, List.mem_cons] at ha
    rcases ha with ha | ha
    · exact Or.inl ha
    · obtain ⟨e, he, hact⟩ := List.mem_filterMap.mp ha
      refine Or.inr ⟨e, he, ?_, hact⟩
      by_cases hdir : e.isDir
      · rw [show dir_entry_action d (output_dir_for d) e = none from by
          simp [dir_entry_action, hdir]] at hact
        cases hact
      · simpa using hdir
  · intro e he inP outP hact
    unfold dir_entry_action at hact
    by_cases hdir : e.isDir
    · rw [if_pos hdir] at hact
      cases hact
    · rw [if_neg hdir] at hact
      by_cases hext : pyExt (pyLower e.name) ∈ image_extensions
      · exact hext
      · rw [if_neg hext] at hact
        simp at hact

/-- Witness for claim C9: a subdirectory entry produces no action. -/
theorem directory_mode_filtering_witness :
    dir_entry_action "/data/photos" (output_dir_for "/data/photos")
      { name := "sub", isDir := true } = none :=
  (directory_mode_filtering "/data/photos" []).1
    { name := "sub", isDir := true } rfl

/-- Claim C10: in directory mode the output directory is created
first, before any entry is examined, even over an empty entry list;
in single-file mode a non-image input yields only the skip message and
no directory creation. -/
theorem mkdir_timing (d f : String) (entries : List DirEntry) :
    (process_directory d entries).head? =
      some (FsAction.mkdirA (output_dir_for d)) ∧
    (pyExt (pyLower f) ∉ image_extensions →
      process_single_file f = [FsAction.skipMsg f] ∧
      ∀ p, FsAction.mkdirA p ∉ process_single_file f) := by
  refine ⟨rfl, fun hext => ?_⟩
  have h1 : process_single_file f = [FsAction.skipMsg f] := by
    unfold process_single_file
    rw [if_neg hext]
  refine ⟨h1, fun p hp => ?_⟩
  rw [h1] at hp
  simp at hp

/-- Witness for claim C10: a .txt single-file input is only skipped. -/
theorem mkdir_timing_witness :
    process_single_file "/tmp/notes.txt" = [FsAction.skipMsg "/tmp/notes.txt"] :=
  ((mkdir_timing "irrelevant" "/tmp/notes.txt" []).2 (by decide)).1
